import Mathlib

/-!
# TagPass RFID access management — verification of the edge agent

A shallow embedding of the Raspberry-side synchronization agent
(`src/raspberry/db_local.py`, `local_server.py`, `worker.py`).

The SQLite store is modelled as in-memory lists kept in rowid (insertion)
order; the cloud store and the disk are modelled as explicit parameters
(the list of valid card uids fetched from `rfid_cards`, a boolean for the
outcome of the batch insert, a boolean for the outcome of a local disk
write).  Timestamps are opaque strings threaded as parameters where the
SQL schema fills in `CURRENT_TIMESTAMP`.
-/

namespace TagPass

/-- A row of the `local_events` table (`db_local.py`, `init_local_db`):
`id INTEGER PRIMARY KEY AUTOINCREMENT, card_uid TEXT, timestamp DATETIME,
authorized INTEGER, synced INTEGER DEFAULT 0`. -/
structure ScanRecord where
  id : Nat
  card_uid : String
  timestamp : String
  authorized : Bool
  synced : Bool
deriving Repr, DecidableEq

/-- A row of the `blocked_cards` table: `card_uid, room_id, updated_at`,
primary key `(card_uid, room_id)`. -/
structure BlockedEntry where
  card_uid : String
  room_id : String
  updated_at : String
deriving Repr, DecidableEq

/-- The local SQLite database.  `events` and `blocked` are kept in rowid
order; `nextId` is the `AUTOINCREMENT` counter of `local_events`. -/
structure LocalDB where
  events : List ScanRecord
  blocked : List BlockedEntry
  nextId : Nat
deriving Repr, DecidableEq

/-- `DEFAULT_ROOM_ID = ""` (db_local.py line 3). -/
def DEFAULT_ROOM_ID : String := ""

/-- `is_card_blocked(db_path, card_uid, room_id)` (db_local.py 147-157):
returns `False` outright when `room_id is None or room_id == ""`, otherwise
`SELECT 1 FROM blocked_cards WHERE card_uid = ? AND room_id = ? LIMIT 1`. -/
def is_card_blocked (db : LocalDB) (card_uid : String) (room_id : Option String) : Bool :=
  match room_id with
  | none => false
  | some r =>
    if r = "" then false
    else db.blocked.any (fun e => e.card_uid == card_uid && e.room_id == r)

/-- `insert_local_event(db_path, card_uid, authorized)` (db_local.py 93-100):
`INSERT INTO local_events (card_uid, authorized) VALUES (?, ?)`; `timestamp`
defaults to `CURRENT_TIMESTAMP` (the `now` argument) and `synced` to `0`. -/
def insert_local_event (db : LocalDB) (card_uid : String) (now : String)
    (authorized : Bool) : LocalDB :=
  { db with
    events := db.events ++ [⟨db.nextId, card_uid, now, authorized, false⟩]
    nextId := db.nextId + 1 }

/-- The row shape returned by the event queries:
`(id, card_uid, timestamp, authorized)`. -/
abbrev EventRow := Nat × String × String × Bool

/-- Project a stored record to the `SELECT id, card_uid, timestamp, authorized`
row shape. -/
def toRow (r : ScanRecord) : EventRow := (r.id, r.card_uid, r.timestamp, r.authorized)

/-- `get_unsynced_events(db_path)` (db_local.py 104-111):
`SELECT id, card_uid, timestamp, authorized FROM local_events WHERE synced = 0`.
There is no `ORDER BY`; SQLite scans the table in rowid order, which the model
reflects by filtering the rowid-ordered list. -/
def get_unsynced_events (db : LocalDB) : List EventRow :=
  (db.events.filter (fun r => r.synced == false)).map toRow

/-- `mark_as_synced(db_path, ids)` (db_local.py 113-117):
`UPDATE local_events SET synced = 1 WHERE id = ?` for each id. -/
def mark_as_synced (db : LocalDB) (ids : List Nat) : LocalDB :=
  { db with
    events := db.events.map (fun r => if ids.contains r.id then { r with synced := true } else r) }

/-- `upsert_blocked_card(db_path, card_uid, updated_at, room_id)`
(db_local.py 120-134): `INSERT OR REPLACE INTO blocked_cards`, i.e. the row
with the same primary key `(card_uid, room_id)` is replaced. -/
def upsert_blocked_card (db : LocalDB) (card_uid : String) (updated_at : String)
    (room_id : String) : LocalDB :=
  { db with
    blocked :=
      db.blocked.filter (fun e => !(e.card_uid == card_uid && e.room_id == room_id))
        ++ [⟨card_uid, room_id, updated_at⟩] }

/-- `remove_blocked_card(db_path, card_uid, room_id)` (db_local.py 137-144):
`DELETE FROM blocked_cards WHERE card_uid = ? AND room_id = ?`. -/
def remove_blocked_card (db : LocalDB) (card_uid : String) (room_id : String) : LocalDB :=
  { db with
    blocked := db.blocked.filter (fun e => !(e.card_uid == card_uid && e.room_id == room_id)) }

/-- `mark_event_as_invalid(db_path, event_id)` (db_local.py 171-178):
`UPDATE local_events SET synced = 1 WHERE id = ?`. -/
def mark_event_as_invalid (db : LocalDB) (event_id : Nat) : LocalDB :=
  { db with
    events := db.events.map (fun r => if r.id == event_id then { r with synced := true } else r) }

/-- The loop of `get_valid_unsynced_events` (db_local.py 188-196): walk the
snapshot of unsynced rows; collect a row whose `card_uid` is in the valid set,
otherwise `mark_event_as_invalid` it in the store. -/
def gvueLoop (valid : List String) (rows : List ScanRecord) (acc : List EventRow)
    (db : LocalDB) : List EventRow × LocalDB :=
  match rows with
  | [] => (acc, db)
  | r :: rest =>
    if valid.contains r.card_uid then gvueLoop valid rest (acc ++ [toRow r]) db
    else gvueLoop valid rest acc (mark_event_as_invalid db r.id)

/-- `get_valid_unsynced_events(db_path, valid_card_uids)` (db_local.py 180-198):
fetch the unsynced rows, then run the validation loop.  Returns the valid rows
and the store after the automatic cleanup of invalid ones. -/
def get_valid_unsynced_events (db : LocalDB) (valid_card_uids : List String) :
    List EventRow × LocalDB :=
  gvueLoop valid_card_uids (db.events.filter (fun r => r.synced == false)) [] db

/-- `update_blocked_cards(db_path, blocked_cards)` (db_local.py 200-209):
`DELETE FROM blocked_cards` then insert every `(card_uid, room_id)` pair,
`updated_at` defaulting to `CURRENT_TIMESTAMP` (the `now` argument). -/
def update_blocked_cards (db : LocalDB) (blocked_cards : List (String × String))
    (now : String) : LocalDB :=
  { db with blocked := blocked_cards.map (fun p => ⟨p.1, p.2, now⟩) }

/-- `get_counts(db_path)` (db_local.py 160-169). -/
def get_counts (db : LocalDB) : Nat × Nat × Nat :=
  ( (db.events.filter (fun r => r.synced == false)).length
  , db.blocked.length
  , db.events.length )

/-! ## Ingestion endpoint and intake-queue consumer (`local_server.py`) -/

/-- Python truthiness of `data.get("card_uid")`: `not card_uid` is true when
the key is missing (`None`) or the value is the empty string. -/
def pyFalsy : Option String → Bool
  | none => true
  | some s => s == ""

/-- The JSON response of `POST /rfid`: HTTP code plus the body fields used by
the two branches of `receive_rfid`. -/
structure RfidResponse where
  code : Nat
  status : Option String
  authorized : Option Bool
  error : Option String
deriving Repr, DecidableEq

/-- `receive_rfid` (local_server.py 16-29): reject when `not card_uid`;
otherwise read the mirror with `is_card_blocked(db, card_uid, get_room_id() or "")`,
set `authorized = not blocked`, enqueue `(card_uid, authorized)` and answer
`202 {status: "queued", authorized}`.  Returns the response together with the
items pushed onto the intake queue. -/
def receive_rfid (db : LocalDB) (room_id : Option String) (card_uid : Option String) :
    RfidResponse × List (String × Bool) :=
  if pyFalsy card_uid then
    (⟨400, none, none, some "card_uid requerido"⟩, [])
  else
    let uid := card_uid.getD ""
    let blocked := is_card_blocked db uid (some (room_id.getD ""))
    let authorized := !blocked
    (⟨202, some "queued", some authorized, none⟩, [(uid, authorized)])

/-- The exception text standing for a storage-engine failure. -/
def sqliteError : String := "sqlite3 operational error"

/-- `insert_local_event` with the disk outcome made explicit: the Python
function installs no handler, so a storage error propagates to its caller. -/
def insertLocalEventRun (engineOk : Bool) (db : LocalDB) (card_uid : String)
    (now : String) (authorized : Bool) : Except String LocalDB :=
  if engineOk then .ok (insert_local_event db card_uid now authorized)
  else .error sqliteError

/-- One item processed by `_queue_worker` (local_server.py 39-57): the durable
write runs inside `try/except Exception`; on error the worker only logs and
calls `task_done`, dropping the item.  Returns the store state afterwards and
whether the item was dropped. -/
def queueWorkerStep (engineOk : Bool) (db : LocalDB) (now : String)
    (item : String × Bool) : LocalDB × Bool :=
  match insertLocalEventRun engineOk db item.1 now item.2 with
  | .ok db2 => (db2, false)
  | .error _ => (db, true)

/-- Outcome of one scan pushed through the whole ingestion path. -/
structure IngestOutcome where
  resp : RfidResponse
  db : LocalDB
  dropped : Bool
deriving Repr, DecidableEq

/-- End-to-end ingestion of one scan: the endpoint computes the response and
enqueues; the queue consumer then performs the durable write (`engineOk` is
the disk outcome).  The response is sent before the consumer runs. -/
def ingestScan (engineOk : Bool) (db : LocalDB) (room_id : Option String)
    (card_uid : Option String) (now : String) : IngestOutcome :=
  let er := receive_rfid db room_id card_uid
  match er.2 with
  | [] => ⟨er.1, db, false⟩
  | item :: _ =>
    let wr := queueWorkerStep engineOk db now item
    ⟨er.1, wr.1, wr.2⟩

/-! ## Cloud sync engine (`worker.py`) -/

/-- A row of the `access_events` payload built by `sync_with_supabase`
(worker.py 109-119). -/
structure CloudEvent where
  card_uid : String
  raspberry_id : String
  room_id : String
  event_time : String
  authorized : Bool
deriving Repr, DecidableEq

/-- Result of one `sync_with_supabase` cycle: the store afterwards, the batch
handed to the single cloud insert, and the returned boolean. -/
structure SyncResult where
  db : LocalDB
  payload : List CloudEvent
  ok : Bool
deriving Repr, DecidableEq

/-- `sync_with_supabase()` (worker.py 97-128) with the cloud made explicit:
`valid_card_uids` is what `_get_valid_card_uids()` returned (empty on error),
`insertOk` whether the single `access_events` insert succeeds.  On success
`mark_as_synced` runs on all uploaded ids; on failure it does not. -/
def sync_with_supabase (db : LocalDB) (valid_card_uids : List String)
    (insertOk : Bool) (device_id room_id : String) : SyncResult :=
  let ev := get_valid_unsynced_events db valid_card_uids
  if ev.1.isEmpty then ⟨ev.2, [], true⟩
  else
    let payload := ev.1.map (fun e => ⟨e.2.1, device_id, room_id, e.2.2.1, e.2.2.2⟩)
    let ids := ev.1.map (fun e => e.1)
    if insertOk then ⟨mark_as_synced ev.2 ids, payload, true⟩
    else ⟨ev.2, payload, false⟩

/-- `seed_blocked_from_cloud()` (worker.py 57-81): query `access_blocks`
restricted to this device's room (`.eq("room_id", get_room_id())`) and replace
the mirror wholesale with the result. -/
def seed_blocked_from_cloud (db : LocalDB) (cloudBlocks : List (String × String))
    (deviceRoom : String) (now : String) : LocalDB :=
  update_blocked_cards db (cloudBlocks.filter (fun p => p.2 == deviceRoom)) now

/-! ## Backoff policies (`worker.py`) -/

/-- One transition of the doubling backoff used by the main sync loop
(worker.py 294-302) and the background auth refresher (worker.py 37-55):
success resets to `BACKOFF_MIN`, failure doubles capped at `BACKOFF_MAX`. -/
def nextBackoff (bmin bmax b : Nat) (ok : Bool) : Nat :=
  if ok then bmin else min (b * 2) bmax

/-- The sleep performed after the `(k+1)`-th consecutive failure of the
doubling loops: the state starts at `BACKOFF_MIN`, each failure sleeps the
current value and then doubles it capped at `BACKOFF_MAX`. -/
def backoffAfter (bmin bmax : Nat) : Nat → Nat
  | 0 => bmin
  | k + 1 => min (backoffAfter bmin bmax k * 2) bmax

/-- The sleep performed after the `(k+1)`-th consecutive failure of the initial
blocking login of `run_worker` (worker.py 257-277): `attempt` starts at 1, is
incremented before the sleep, and the sleep is
`min(BACKOFF_MIN * attempt, BACKOFF_MAX)` — so the `(k+1)`-th failure sleeps
`min(bmin * (k + 2), bmax)`. -/
def initLoginDelay (bmin bmax : Nat) (k : Nat) : Nat :=
  min (bmin * (k + 2)) bmax

/-! ## Helper lemmas -/

/-- The capped doubling backoff never exceeds the ceiling. -/
lemma backoffAfter_le_bmax (bmin bmax : Nat) (h : bmin ≤ bmax) :
    ∀ k, backoffAfter bmin bmax k ≤ bmax := by
  intro k
  induction k with
  | zero => exact h
  | succ n _ => exact Nat.min_le_right _ _

/-! ## Claims -/

/-- Claim C1: for every `card_uid`, `is_card_blocked` with an unset (`None`)
or empty `room_id` returns `false`, regardless of the contents of the
blocked-cards mirror: an unresolved room never produces a denial on the
local fast-path. -/
theorem c1_fail_open_on_unresolved_room (db : LocalDB) (card_uid : String)
    (room_id : Option String) (h : room_id = none ∨ room_id = some "") :
    is_card_blocked db card_uid room_id = false := by
  rcases h with h | h <;> subst h <;> simp [is_card_blocked]

/-- Witness for C1: a mirror that even contains the card (under room `"R1"`
and under the empty room) still yields `false` for an unset room. -/
theorem c1_fail_open_on_unresolved_room_witness :
    ((none : Option String) = none ∨ (none : Option String) = some "") ∧
      is_card_blocked ⟨[], [⟨"X", "R1", "t0"⟩, ⟨"X", "", "t0"⟩], 0⟩ "X" none = false :=
  ⟨Or.inl rfl,
    c1_fail_open_on_unresolved_room ⟨[], [⟨"X", "R1", "t0"⟩, ⟨"X", "", "t0"⟩], 0⟩ "X" none
      (Or.inl rfl)⟩

/-- Counterexample to claim C5: the claim says a request whose `card_uid` is
present gets `202 {status: "queued", ...}` and is enqueued, with `400`
reserved for an absent `card_uid`.  But `receive_rfid` tests Python
truthiness (`if not card_uid`), so the present-but-empty `card_uid = ""`
gets `400` and nothing is enqueued. -/
theorem c5_counterexample :
    (receive_rfid ⟨[], [], 0⟩ (some "R1") (some "")).1.code = 400
    ∧ ¬ (receive_rfid ⟨[], [], 0⟩ (some "R1") (some "")).1.code = 202
    ∧ (receive_rfid ⟨[], [], 0⟩ (some "R1") (some "")).2 = [] := by decide

/-- Claim C5 as amended: for every `POST /rfid` request, if `card_uid` is
absent **or empty** the endpoint returns `400` with an error and enqueues
nothing; otherwise it returns `202 {status: "queued"}` with `authorized`
equal to the negation of `is_card_blocked(card_uid, room_id or "")` read
from the local mirror, and always enqueues `(card_uid, authorized)` —
denials included. -/
theorem c5_endpoint_contract (db : LocalDB) (room_id : Option String)
    (card_uid : Option String) :
    (pyFalsy card_uid = true →
      receive_rfid db room_id card_uid = (⟨400, none, none, some "card_uid requerido"⟩, []))
    ∧ ∀ uid, card_uid = some uid → ¬ uid = "" →
      receive_rfid db room_id card_uid =
        (⟨202, some "queued", some (!is_card_blocked db uid (some (room_id.getD ""))), none⟩,
          [(uid, !is_card_blocked db uid (some (room_id.getD "")))]) := by
  constructor
  · intro h
    simp [receive_rfid, h]
  · intro uid hcu hne
    subst hcu
    have hf : pyFalsy (some uid) = false := by simp [pyFalsy, hne]
    simp [receive_rfid, hf]

/-- Witness for C5 (amended): a denied scan — the mirror blocks `("X", "R1")`
— still answers `202 queued` with `authorized = false` and is enqueued. -/
theorem c5_endpoint_contract_witness :
    receive_rfid ⟨[], [⟨"X", "R1", "t0"⟩], 0⟩ (some "R1") (some "X") =
      (⟨202, some "queued", some false, none⟩, [("X", false)]) := by
  have h := (c5_endpoint_contract ⟨[], [⟨"X", "R1", "t0"⟩], 0⟩ (some "R1") (some "X")).2
    "X" rfl (by decide)
  simpa using h

/-- Counterexample to claim C7: the claim says every retried cloud operation
— the authentication login included — produces delays that start at the
configured floor and double on each successive failure.  The initial
blocking login of `run_worker` instead sleeps `min(BACKOFF_MIN * attempt,
BACKOFF_MAX)` with `attempt` already incremented to 2 at the first failure:
with the configured defaults `BACKOFF_MIN = 5`, `BACKOFF_MAX = 300`, the
first delay is `10 ≠ 5` (not the floor) and the second is `15`, not the
double of the first. -/
theorem c7_counterexample :
    ¬ initLoginDelay 5 300 0 = 5 ∧
      ¬ initLoginDelay 5 300 1 = 2 * initLoginDelay 5 300 0 := by decide

/-- Claim C7 as amended: the main sync loop (batch upload) and the background
auth refresher use the capped doubling backoff: the first delay is the
floor, each further failure doubles the delay capped at the ceiling (hence
the sequence is non-decreasing and never exceeds the ceiling), and a success
resets the state to the floor.  The initial blocking login of `run_worker`
instead sleeps `min(floor * attempt, ceiling)` with `attempt` starting at 2
on the first failure: linear growth from twice the floor, still
non-decreasing and capped at the ceiling. -/
theorem c7_backoff_policies (bmin bmax b k : Nat) (h : bmin ≤ bmax) :
    backoffAfter bmin bmax 0 = bmin
    ∧ backoffAfter bmin bmax (k + 1) = min (backoffAfter bmin bmax k * 2) bmax
    ∧ backoffAfter bmin bmax k ≤ backoffAfter bmin bmax (k + 1)
    ∧ backoffAfter bmin bmax k ≤ bmax
    ∧ nextBackoff bmin bmax b true = bmin
    ∧ initLoginDelay bmin bmax 0 = min (bmin * 2) bmax
    ∧ initLoginDelay bmin bmax k = min (bmin * (k + 2)) bmax
    ∧ initLoginDelay bmin bmax k ≤ initLoginDelay bmin bmax (k + 1)
    ∧ initLoginDelay bmin bmax k ≤ bmax := by
  refine ⟨rfl, rfl, ?_, backoffAfter_le_bmax bmin bmax h k, rfl, rfl, rfl, ?_, Nat.min_le_right _ _⟩
  · have hk := backoffAfter_le_bmax bmin bmax h k
    exact Nat.le_min.mpr ⟨by omega, hk⟩
  · exact min_le_min (Nat.mul_le_mul_left bmin (by omega)) le_rfl

/-- Witness for C7 (amended) at the configured defaults `BACKOFF_MIN = 5`,
`BACKOFF_MAX = 300`, after three consecutive failures. -/
theorem c7_backoff_policies_witness :
    5 ≤ 300 ∧
      (backoffAfter 5 300 0 = 5
      ∧ backoffAfter 5 300 (3 + 1) = min (backoffAfter 5 300 3 * 2) 300
      ∧ backoffAfter 5 300 3 ≤ backoffAfter 5 300 (3 + 1)
      ∧ backoffAfter 5 300 3 ≤ 300
      ∧ nextBackoff 5 300 7 true = 5
      ∧ initLoginDelay 5 300 0 = min (5 * 2) 300
      ∧ initLoginDelay 5 300 3 = min (5 * (3 + 2)) 300
      ∧ initLoginDelay 5 300 3 ≤ initLoginDelay 5 300 (3 + 1)
      ∧ initLoginDelay 5 300 3 ≤ 300) :=
  ⟨by decide, c7_backoff_policies 5 300 7 3 (by decide)⟩

/-- An update of the event table is monotone in `synced`: every record
afterwards derives from a record with the same identity and data, whose
`synced` flag is either unchanged or raised from `0` to `1` — never reset. -/
def monotoneUpdate (db db2 : LocalDB) : Prop :=
  ∀ r2 ∈ db2.events, ∃ r ∈ db.events,
    r.id = r2.id ∧ r.card_uid = r2.card_uid ∧ r.timestamp = r2.timestamp
      ∧ r.authorized = r2.authorized
      ∧ (r2.synced = r.synced ∨ (r.synced = false ∧ r2.synced = true))

/-- A pointwise map that only (conditionally) sets `synced := true` is a
monotone update. -/
lemma monotoneUpdate_map (db : LocalDB) (c : ScanRecord → Bool) :
    monotoneUpdate db
      { db with events := db.events.map (fun r => if c r then { r with synced := true } else r) } := by
  intro r2 hr2
  simp only [List.mem_map] at hr2
  obtain ⟨r, hr, hf⟩ := hr2
  refine ⟨r, hr, ?_⟩
  by_cases hc : c r = true
  · rw [if_pos hc] at hf
    subst hf
    cases hs : r.synced
    · exact ⟨rfl, rfl, rfl, rfl, Or.inr ⟨rfl, rfl⟩⟩
    · exact ⟨rfl, rfl, rfl, rfl, Or.inl rfl⟩
  · rw [if_neg hc] at hf
    subst hf
    exact ⟨rfl, rfl, rfl, rfl, Or.inl rfl⟩

/-- Claim C8: the `synced` flag of every `ScanRecord` is monotone: it is `0`
on creation (`insert_local_event` appends the new record with `synced = 0`
and leaves the existing records untouched), and `mark_as_synced` and
`mark_event_as_invalid` each either leave a record's flag unchanged or raise
it from `0` to `1`; no operation ever resets `synced` from `1` back to `0`. -/
theorem c8_synced_flag_monotone (db : LocalDB) (uid now : String) (auth : Bool)
    (ids : List Nat) (eid : Nat) :
    (insert_local_event db uid now auth).events
        = db.events ++ [⟨db.nextId, uid, now, auth, false⟩]
    ∧ monotoneUpdate db (mark_as_synced db ids)
    ∧ monotoneUpdate db (mark_event_as_invalid db eid) :=
  ⟨rfl, monotoneUpdate_map db _, monotoneUpdate_map db _⟩

/-- Claim C6: a full reseed replaces the mirror wholesale: after
`update_blocked_cards` with a list of `(card_uid, room_id)` pairs, a lookup
`is_card_blocked(card_uid, room_id)` with non-empty `room_id` is `true`
exactly when that pair is among the supplied entries; and after
`seed_blocked_from_cloud` — which queries the cloud set restricted to this
device's room — the mirror equals the authoritative set filtered by the
device's `room_id`.  The `Nodup` hypotheses record the primary-key
constraint of the authoritative `access_blocks` table (a duplicate
`(card_uid, room_id)` pair would make the plain `INSERT` raise). -/
theorem c6_reseed_replaces_mirror (db : LocalDB) (entries : List (String × String))
    (cloudBlocks : List (String × String)) (deviceRoom now card room : String)
    (hroom : ¬ room = "") (_hpk : entries.Nodup) (_hpkc : cloudBlocks.Nodup) :
    (is_card_blocked (update_blocked_cards db entries now) card (some room) = true ↔
      (card, room) ∈ entries)
    ∧ (is_card_blocked (seed_blocked_from_cloud db cloudBlocks deviceRoom now) card
        (some room) = true ↔ ((card, room) ∈ cloudBlocks ∧ room = deviceRoom)) := by
  constructor
  · simp only [is_card_blocked, update_blocked_cards, if_neg hroom, List.any_eq_true,
      List.mem_map, Bool.and_eq_true, beq_iff_eq]
    constructor
    · rintro ⟨e, ⟨⟨c2, r2⟩, hmem, rfl⟩, hc, hr⟩
      subst hc; subst hr
      exact hmem
    · intro hmem
      exact ⟨⟨card, room, now⟩, ⟨(card, room), hmem, rfl⟩, rfl, rfl⟩
  · simp only [is_card_blocked, seed_blocked_from_cloud, update_blocked_cards,
      if_neg hroom, List.any_eq_true, List.mem_map, List.mem_filter, Bool.and_eq_true,
      beq_iff_eq]
    constructor
    · rintro ⟨e, ⟨⟨c2, r2⟩, ⟨hmem, hdev⟩, rfl⟩, hc, hr⟩
      subst hc; subst hr
      exact ⟨hmem, hdev⟩
    · rintro ⟨hmem, hdev⟩
      exact ⟨⟨card, room, now⟩, ⟨(card, room), ⟨hmem, hdev⟩, rfl⟩, rfl, rfl⟩

/-- Witness for C6: reseeding with the cloud set
`[("X","R1"), ("Y","R2")]` on a device in room `"R1"` leaves exactly
`("X","R1")` blocked. -/
theorem c6_reseed_replaces_mirror_witness :
    (¬ "R1" = "" ∧ ([("X", "R1")] : List (String × String)).Nodup
      ∧ ([("X", "R1"), ("Y", "R2")] : List (String × String)).Nodup)
    ∧ ((is_card_blocked
          (update_blocked_cards ⟨[], [⟨"Z", "R1", "t0"⟩], 0⟩ [("X", "R1")] "t1")
          "X" (some "R1") = true ↔ ("X", "R1") ∈ [("X", "R1")])
      ∧ (is_card_blocked
          (seed_blocked_from_cloud ⟨[], [⟨"Z", "R1", "t0"⟩], 0⟩ [("X", "R1"), ("Y", "R2")]
            "R1" "t1") "X" (some "R1") = true ↔
          (("X", "R1") ∈ [("X", "R1"), ("Y", "R2")] ∧ "R1" = "R1"))) :=
  ⟨⟨by decide, by decide, by decide⟩,
    c6_reseed_replaces_mirror ⟨[], [⟨"Z", "R1", "t0"⟩], 0⟩ [("X", "R1")]
      [("X", "R1"), ("Y", "R2")] "R1" "t1" "X" "R1" (by decide) (by decide) (by decide)⟩

/-- A lookup of the key `(c, r)` over a list from which that key was just
filtered out is false. -/
lemma any_filter_not_key (l : List BlockedEntry) (c r : String) :
    (l.filter (fun e => !(e.card_uid == c && e.room_id == r))).any
      (fun e => e.card_uid == c && e.room_id == r) = false := by
  rw [List.any_eq_false]
  intro e he
  rw [List.mem_filter] at he
  simp only [Bool.not_eq_true'] at he
  simp [he.2]

/-- Filtering out the key `(c, r)` does not change lookups of a different
key `(c2, r2)`. -/
lemma any_filter_other_key (l : List BlockedEntry) (c r c2 r2 : String)
    (h : ¬ (c2 = c ∧ r2 = r)) :
    (l.filter (fun e => !(e.card_uid == c && e.room_id == r))).any
      (fun e => e.card_uid == c2 && e.room_id == r2) =
    l.any (fun e => e.card_uid == c2 && e.room_id == r2) := by
  rw [Bool.eq_iff_iff]
  simp only [List.any_eq_true, List.mem_filter]
  constructor
  · rintro ⟨e, ⟨he, _⟩, hp⟩
    exact ⟨e, he, hp⟩
  · rintro ⟨e, he, hp⟩
    refine ⟨e, ⟨he, ?_⟩, hp⟩
    simp only [Bool.and_eq_true, beq_iff_eq] at hp
    simp only [Bool.not_eq_true', Bool.and_eq_false_iff, beq_eq_false_iff_ne]
    by_cases hc : e.card_uid = c
    · right
      intro hr2
      exact h ⟨hp.1.symm.trans hc, hp.2.symm.trans hr2⟩
    · exact Or.inl hc

/-- The new key `(c, t, r)` inserted by an upsert does not answer a lookup of
a different key. -/
lemma key_beq_false (c r t c2 r2 : String) (h : ¬ (c2 = c ∧ r2 = r)) :
    ((BlockedEntry.mk c r t).card_uid == c2 && (BlockedEntry.mk c r t).room_id == r2)
      = false := by
  simp only [Bool.and_eq_false_iff, beq_eq_false_iff_ne]
  by_cases hc : c = c2
  · right
    intro hr2
    exact h ⟨hc.symm, hr2.symm⟩
  · exact Or.inl hc

/-- Counterexample to claim C10: the claim's round-trip clause says
`remove_blocked_card` after `upsert_blocked_card` restores the original
blocked set for that key.  When the key was already blocked this fails: the
remove deletes the key outright, so a card originally blocked at its room
ends up unblocked after the round trip. -/
theorem c10_counterexample :
    is_card_blocked ⟨[], [⟨"X", "R1", "t0"⟩], 0⟩ "X" (some "R1") = true
    ∧ ¬ is_card_blocked
        (remove_blocked_card
          (upsert_blocked_card ⟨[], [⟨"X", "R1", "t0"⟩], 0⟩ "X" "t1" "R1") "X" "R1")
        "X" (some "R1") = true := by decide

/-- Claim C10 as amended: unconditionally, `upsert_blocked_card` is
idempotent for a fixed `(card_uid, room_id, updated_at)`, after an upsert
the key is blocked (for a non-empty room), after a remove the key is not
blocked — whether or not it was blocked before — and both operations leave
lookups of every other `(card_uid, room_id)` key unchanged; the round-trip
`remove` after `upsert` restores the original blocked set **provided the
key was not blocked originally** — if it was, the round trip leaves the key
unblocked instead of restoring it. -/
theorem c10_blocked_card_ops (db : LocalDB) (c r t : String) (hr : ¬ r = "") :
    upsert_blocked_card (upsert_blocked_card db c t r) c t r = upsert_blocked_card db c t r
    ∧ is_card_blocked (upsert_blocked_card db c t r) c (some r) = true
    ∧ is_card_blocked (remove_blocked_card db c r) c (some r) = false
    ∧ (∀ c2 r2, ¬ (c2 = c ∧ r2 = r) →
        is_card_blocked (upsert_blocked_card db c t r) c2 (some r2) =
          is_card_blocked db c2 (some r2)
        ∧ is_card_blocked (remove_blocked_card db c r) c2 (some r2) =
          is_card_blocked db c2 (some r2))
    ∧ ((∀ e ∈ db.blocked, ¬ (e.card_uid = c ∧ e.room_id = r)) →
        remove_blocked_card (upsert_blocked_card db c t r) c r = db) := by
  obtain ⟨ev, bl, ni⟩ := db
  refine ⟨?_, ?_, ?_, ?_, ?_⟩
  · simp [upsert_blocked_card, List.filter_append, List.filter_filter]
  · simp [is_card_blocked, upsert_blocked_card, if_neg hr, List.any_append]
  · simp only [is_card_blocked, remove_blocked_card, if_neg hr]
    exact any_filter_not_key bl c r
  · intro c2 r2 hne
    by_cases h2 : r2 = ""
    · simp [is_card_blocked, h2]
    · constructor
      · simp only [is_card_blocked, upsert_blocked_card, if_neg h2, List.any_append,
          any_filter_other_key bl c r c2 r2 hne, List.any_cons, List.any_nil,
          key_beq_false c r t c2 r2 hne, Bool.or_false]
      · simp only [is_card_blocked, remove_blocked_card, if_neg h2,
          any_filter_other_key bl c r c2 r2 hne]
  · intro hfresh
    have hkeep : List.filter (fun e => !(e.card_uid == c && e.room_id == r)) bl = bl := by
      rw [List.filter_eq_self]
      intro e he
      have := hfresh e he
      simp only [Bool.not_eq_true', Bool.and_eq_false_iff, beq_eq_false_iff_ne]
      by_cases hc : e.card_uid = c
      · right
        intro hr2
        exact this ⟨hc, hr2⟩
      · exact Or.inl hc
    simp [remove_blocked_card, upsert_blocked_card, List.filter_append,
      List.filter_filter, hkeep]
    exact fun a ha => not_and_or.mp (hfresh a ha)

/-- Witness for C10 (amended): the key `("X", "R1")` is fresh in a mirror that
blocks only `("Z", "R1")`; the amended clauses hold there, the other-keys
clause instantiated at the key `("Z", "R1")`. -/
theorem c10_blocked_card_ops_witness :
    (¬ "R1" = ""
      ∧ (∀ e ∈ (⟨[], [⟨"Z", "R1", "t0"⟩], 0⟩ : LocalDB).blocked,
          ¬ (e.card_uid = "X" ∧ e.room_id = "R1"))
      ∧ ¬ ("Z" = "X" ∧ "R1" = "R1"))
    ∧ (upsert_blocked_card (upsert_blocked_card ⟨[], [⟨"Z", "R1", "t0"⟩], 0⟩ "X" "t1" "R1")
          "X" "t1" "R1" = upsert_blocked_card ⟨[], [⟨"Z", "R1", "t0"⟩], 0⟩ "X" "t1" "R1"
      ∧ is_card_blocked (upsert_blocked_card ⟨[], [⟨"Z", "R1", "t0"⟩], 0⟩ "X" "t1" "R1")
          "X" (some "R1") = true
      ∧ is_card_blocked (remove_blocked_card ⟨[], [⟨"Z", "R1", "t0"⟩], 0⟩ "X" "R1")
          "X" (some "R1") = false
      ∧ (is_card_blocked (upsert_blocked_card ⟨[], [⟨"Z", "R1", "t0"⟩], 0⟩ "X" "t1" "R1")
            "Z" (some "R1") =
          is_card_blocked ⟨[], [⟨"Z", "R1", "t0"⟩], 0⟩ "Z" (some "R1")
        ∧ is_card_blocked (remove_blocked_card ⟨[], [⟨"Z", "R1", "t0"⟩], 0⟩ "X" "R1")
            "Z" (some "R1") =
          is_card_blocked ⟨[], [⟨"Z", "R1", "t0"⟩], 0⟩ "Z" (some "R1"))
      ∧ remove_blocked_card (upsert_blocked_card ⟨[], [⟨"Z", "R1", "t0"⟩], 0⟩ "X" "t1" "R1")
          "X" "R1" = ⟨[], [⟨"Z", "R1", "t0"⟩], 0⟩) := by
  have H := c10_blocked_card_ops ⟨[], [⟨"Z", "R1", "t0"⟩], 0⟩ "X" "R1" "t1" (by decide)
  exact ⟨⟨by decide, by decide, by decide⟩,
    H.1, H.2.1, H.2.2.1, H.2.2.2.1 "Z" "R1" (by decide), H.2.2.2.2 (by decide)⟩

/-! ## Behaviour of the validation loop of `get_valid_unsynced_events` -/

/-- The store updates performed by the validation loop, separated from the
row collection: invalid rows of the snapshot are marked, in order. -/
def invalidCleanup (valid : List String) (rows : List ScanRecord) (db : LocalDB) : LocalDB :=
  rows.foldl
    (fun d r => if valid.contains r.card_uid then d else mark_event_as_invalid d r.id) db

/-- The rows collected by the validation loop are exactly the valid-card
filter of the snapshot, in snapshot order. -/
lemma gvueLoop_fst (valid : List String) (rows : List ScanRecord) :
    ∀ (acc : List EventRow) (db : LocalDB),
      (gvueLoop valid rows acc db).1 =
        acc ++ (rows.filter (fun r => valid.contains r.card_uid)).map toRow := by
  induction rows with
  | nil => intro acc db; simp [gvueLoop]
  | cons r rest ih =>
    intro acc db
    by_cases h : r.card_uid ∈ valid
    · simp [gvueLoop, h, ih]
    · simp [gvueLoop, h, ih]

/-- The store left by the validation loop is the snapshot cleanup fold,
independently of the accumulator. -/
lemma gvueLoop_snd (valid : List String) (rows : List ScanRecord) :
    ∀ (acc : List EventRow) (db : LocalDB),
      (gvueLoop valid rows acc db).2 = invalidCleanup valid rows db := by
  induction rows with
  | nil => intro acc db; simp [gvueLoop, invalidCleanup]
  | cons r rest ih =>
    intro acc db
    by_cases h : r.card_uid ∈ valid
    · simp [gvueLoop, h, ih, invalidCleanup]
    · simp [gvueLoop, h, ih, invalidCleanup]

/-- Marking a different id leaves a record untouched in the table. -/
lemma mem_mark_event_as_invalid (db : LocalDB) (i : Nat) (r : ScanRecord)
    (h : r ∈ db.events) (hne : ¬ r.id = i) :
    r ∈ (mark_event_as_invalid db i).events := by
  simp only [mark_event_as_invalid, List.mem_map]
  exact ⟨r, h, by simp [hne]⟩

/-- A record whose id differs from every invalid row of the snapshot survives
the cleanup fold untouched. -/
lemma mem_invalidCleanup (valid : List String) (rows : List ScanRecord) :
    ∀ (db : LocalDB) (r : ScanRecord), r ∈ db.events →
      (∀ s ∈ rows, valid.contains s.card_uid = false → ¬ s.id = r.id) →
      r ∈ (invalidCleanup valid rows db).events := by
  induction rows with
  | nil => intro db r h _; simpa [invalidCleanup] using h
  | cons s rest ih =>
    intro db r h hne
    simp only [invalidCleanup, List.foldl_cons]
    by_cases hc : valid.contains s.card_uid = true
    · rw [if_pos hc]
      exact ih db r h (fun s2 hs2 => hne s2 (List.mem_cons_of_mem s hs2))
    · rw [if_neg hc]
      have hns : ¬ s.id = r.id :=
        hne s (List.mem_cons_self s rest) (Bool.eq_false_iff.mpr hc)
      exact ih _ r (mem_mark_event_as_invalid db s.id r h (fun he => hns he.symm))
        (fun s2 hs2 => hne s2 (List.mem_cons_of_mem s hs2))

/-- Every record stored under id `i` is marked synced. -/
def idSyncedTrue (db : LocalDB) (i : Nat) : Prop :=
  ∀ r ∈ db.events, r.id = i → r.synced = true

/-- Marking an id establishes `idSyncedTrue` for it. -/
lemma idSyncedTrue_mark_self (db : LocalDB) (i : Nat) :
    idSyncedTrue (mark_event_as_invalid db i) i := by
  intro r hr hid
  simp only [mark_event_as_invalid, List.mem_map] at hr
  obtain ⟨s, _, rfl⟩ := hr
  by_cases hc : s.id = i
  · simp [hc]
  · rw [if_neg (by simp [hc])] at hid ⊢
    exact absurd hid hc

/-- A pointwise map that only (conditionally) sets `synced := true` preserves
`idSyncedTrue`. -/
lemma idSyncedTrue_map (db : LocalDB) (i : Nat) (c : ScanRecord → Bool)
    (h : idSyncedTrue db i) :
    idSyncedTrue
      { db with
        events := db.events.map (fun r => if c r then { r with synced := true } else r) } i := by
  intro r hr hid
  simp only [List.mem_map] at hr
  obtain ⟨s, hs, rfl⟩ := hr
  by_cases hc : c s = true
  · simp [hc]
  · rw [if_neg hc] at hid ⊢
    exact h s hs hid

/-- The cleanup fold preserves `idSyncedTrue`. -/
lemma idSyncedTrue_invalidCleanup (valid : List String) (rows : List ScanRecord) :
    ∀ (db : LocalDB) (i : Nat), idSyncedTrue db i →
      idSyncedTrue (invalidCleanup valid rows db) i := by
  induction rows with
  | nil => intro db i h; simpa [invalidCleanup] using h
  | cons s rest ih =>
    intro db i h
    simp only [invalidCleanup, List.foldl_cons]
    by_cases hc : valid.contains s.card_uid = true
    · rw [if_pos hc]
      exact ih db i h
    · rw [if_neg hc]
      exact ih _ i (idSyncedTrue_map db i _ h)

/-- The cleanup fold marks every invalid row of the snapshot synced. -/
lemma invalidCleanup_marks (valid : List String) (rows : List ScanRecord) :
    ∀ (db : LocalDB) (s : ScanRecord), s ∈ rows → valid.contains s.card_uid = false →
      idSyncedTrue (invalidCleanup valid rows db) s.id := by
  induction rows with
  | nil => intro db s hs _; cases hs
  | cons s2 rest ih =>
    intro db s hs hinv
    simp only [invalidCleanup, List.foldl_cons]
    rcases List.mem_cons.mp hs with rfl | hmem
    · rw [if_neg (Bool.eq_false_iff.mp hinv)]
      exact idSyncedTrue_invalidCleanup valid rest _ s.id (idSyncedTrue_mark_self db s.id)
    · by_cases hc : valid.contains s2.card_uid = true
      · rw [if_pos hc]
        exact ih db s hmem hinv
      · rw [if_neg hc]
        exact ih _ s hmem hinv

/-- Claim C9: `get_unsynced_events` returns exactly the records with
`synced = 0`, in ascending order of the monotonic local id (oldest first,
the table being scanned in rowid order); the valid subset returned by
`get_valid_unsynced_events` is its valid-card filter, so it lists the upload
candidates in the same ascending-id order. -/
theorem c9_unsynced_oldest_first (db : LocalDB) (valid : List String)
    (hsort : db.events.Pairwise (fun a b => a.id < b.id)) :
    (∀ row, row ∈ get_unsynced_events db ↔
        ∃ r ∈ db.events, r.synced = false ∧ toRow r = row)
    ∧ (get_unsynced_events db).Pairwise (fun a b => a.1 < b.1)
    ∧ (get_valid_unsynced_events db valid).1 =
        (get_unsynced_events db).filter (fun row => valid.contains row.2.1)
    ∧ ((get_valid_unsynced_events db valid).1).Pairwise (fun a b => a.1 < b.1) := by
  have hmem : ∀ row, row ∈ get_unsynced_events db ↔
      ∃ r ∈ db.events, r.synced = false ∧ toRow r = row := by
    intro row
    simp only [get_unsynced_events, List.mem_map, List.mem_filter, beq_iff_eq]
    constructor
    · rintro ⟨r, ⟨hr, hs⟩, hrow⟩
      exact ⟨r, hr, hs, hrow⟩
    · rintro ⟨r, hr, hs, hrow⟩
      exact ⟨r, ⟨hr, hs⟩, hrow⟩
  have hpair : (get_unsynced_events db).Pairwise (fun a b => a.1 < b.1) := by
    rw [get_unsynced_events, List.pairwise_map]
    exact List.Pairwise.filter _ hsort
  have hfst : (get_valid_unsynced_events db valid).1 =
      (get_unsynced_events db).filter (fun row => valid.contains row.2.1) := by
    rw [get_valid_unsynced_events, gvueLoop_fst, List.nil_append, get_unsynced_events,
      List.filter_map]
    rfl
  exact ⟨hmem, hpair, hfst, hfst ▸ List.Pairwise.filter _ hpair⟩

/-- Witness for C9 on a three-record store (two unsynced, one synced, rowid
order 1 < 2 < 3). -/
theorem c9_unsynced_oldest_first_witness :
    ((⟨[⟨1, "V", "t1", true, false⟩, ⟨2, "S", "t2", true, true⟩,
        ⟨3, "W", "t3", false, false⟩], [], 4⟩ : LocalDB).events.Pairwise
          (fun a b => a.id < b.id))
    ∧ ((∀ row, row ∈ get_unsynced_events
          ⟨[⟨1, "V", "t1", true, false⟩, ⟨2, "S", "t2", true, true⟩,
            ⟨3, "W", "t3", false, false⟩], [], 4⟩ ↔
        ∃ r ∈ (⟨[⟨1, "V", "t1", true, false⟩, ⟨2, "S", "t2", true, true⟩,
            ⟨3, "W", "t3", false, false⟩], [], 4⟩ : LocalDB).events,
          r.synced = false ∧ toRow r = row)
      ∧ (get_unsynced_events
          ⟨[⟨1, "V", "t1", true, false⟩, ⟨2, "S", "t2", true, true⟩,
            ⟨3, "W", "t3", false, false⟩], [], 4⟩).Pairwise (fun a b => a.1 < b.1)
      ∧ (get_valid_unsynced_events
          ⟨[⟨1, "V", "t1", true, false⟩, ⟨2, "S", "t2", true, true⟩,
            ⟨3, "W", "t3", false, false⟩], [], 4⟩ ["V"]).1 =
          (get_unsynced_events
            ⟨[⟨1, "V", "t1", true, false⟩, ⟨2, "S", "t2", true, true⟩,
              ⟨3, "W", "t3", false, false⟩], [], 4⟩).filter
            (fun row => (["V"] : List String).contains row.2.1)
      ∧ ((get_valid_unsynced_events
          ⟨[⟨1, "V", "t1", true, false⟩, ⟨2, "S", "t2", true, true⟩,
            ⟨3, "W", "t3", false, false⟩], [], 4⟩ ["V"]).1).Pairwise
          (fun a b => a.1 < b.1)) :=
  ⟨by decide,
    c9_unsynced_oldest_first
      ⟨[⟨1, "V", "t1", true, false⟩, ⟨2, "S", "t2", true, true⟩,
        ⟨3, "W", "t3", false, false⟩], [], 4⟩ ["V"] (by decide)⟩

/-- The candidate rows of `get_valid_unsynced_events` are the valid-card
filter of the unsynced snapshot, in rowid order. -/
lemma gvue_fst_eq (db : LocalDB) (valid : List String) :
    (get_valid_unsynced_events db valid).1 =
      ((db.events.filter (fun r => r.synced == false)).filter
        (fun r => valid.contains r.card_uid)).map toRow := by
  rw [get_valid_unsynced_events, gvueLoop_fst, List.nil_append]

/-- The store left by `get_valid_unsynced_events` is the cleanup fold over
the unsynced snapshot. -/
lemma gvue_snd_eq (db : LocalDB) (valid : List String) :
    (get_valid_unsynced_events db valid).2 =
      invalidCleanup valid (db.events.filter (fun r => r.synced == false)) db := by
  rw [get_valid_unsynced_events, gvueLoop_snd]

/-- Claim C3: the batch upload of one sync cycle is atomic with respect to
the `synced` flag of the valid candidates: when the single cloud insert
succeeds, every uploaded event's id ends marked `synced`; when it fails,
every candidate's record still has `synced = 0` (it stays for the next
cycle), and the cycle reports the insert outcome.  The `Nodup` hypothesis is
the `AUTOINCREMENT` primary-key property of `local_events.id`. -/
theorem c3_batch_upload_atomic (db : LocalDB) (valid : List String) (insertOk : Bool)
    (device_id room_id : String) (hids : (db.events.map ScanRecord.id).Nodup) :
    (¬ (get_valid_unsynced_events db valid).1 = [] →
      (sync_with_supabase db valid insertOk device_id room_id).ok = insertOk)
    ∧ ∀ e ∈ (get_valid_unsynced_events db valid).1,
        ∃ r ∈ (sync_with_supabase db valid insertOk device_id room_id).db.events,
          r.id = e.1 ∧ r.synced = insertOk := by
  constructor
  · intro hne
    have hE : (get_valid_unsynced_events db valid).1.isEmpty = false := by
      cases hc : (get_valid_unsynced_events db valid).1 with
      | nil => exact absurd hc hne
      | cons a l => rfl
    cases insertOk <;> simp [sync_with_supabase, hE]
  · intro e he
    have he2 : e ∈ ((db.events.filter (fun r => r.synced == false)).filter
        (fun r => valid.contains r.card_uid)).map toRow := by
      rw [← gvue_fst_eq]
      exact he
    obtain ⟨r0, hr0f, hrow⟩ := List.mem_map.mp he2
    obtain ⟨hr0rows, hr0valid⟩ := List.mem_filter.mp hr0f
    obtain ⟨hr0mem, hr0sync⟩ := List.mem_filter.mp hr0rows
    have hsync0 : r0.synced = false := by simpa using hr0sync
    have hinj := List.inj_on_of_nodup_map hids
    have hfresh : ∀ s ∈ db.events.filter (fun r => r.synced == false),
        valid.contains s.card_uid = false → ¬ s.id = r0.id := by
      intro s hs hsv heq
      have hsmem : s ∈ db.events := (List.mem_filter.mp hs).1
      have hsr : s = r0 := hinj hsmem hr0mem heq
      rw [hsr] at hsv
      exact (Bool.eq_false_iff.mp hsv) hr0valid
    have hdb1 : r0 ∈ ((get_valid_unsynced_events db valid).2).events := by
      rw [gvue_snd_eq]
      exact mem_invalidCleanup valid _ db r0 hr0mem hfresh
    have hid : r0.id = e.1 := by rw [← hrow]; rfl
    have hE : (get_valid_unsynced_events db valid).1.isEmpty = false := by
      cases hc : (get_valid_unsynced_events db valid).1 with
      | nil =>
        rw [hc] at he
        exact absurd he (List.not_mem_nil e)
      | cons a l => rfl
    cases insertOk with
    | false =>
      have hres : (sync_with_supabase db valid false device_id room_id).db =
          (get_valid_unsynced_events db valid).2 := by
        simp [sync_with_supabase, hE]
      rw [hres]
      exact ⟨r0, hdb1, hid, hsync0⟩
    | true =>
      have hres : (sync_with_supabase db valid true device_id room_id).db =
          mark_as_synced (get_valid_unsynced_events db valid).2
            ((get_valid_unsynced_events db valid).1.map (fun e2 => e2.1)) := by
        simp [sync_with_supabase, hE]
      rw [hres]
      have hin : r0.id ∈ (get_valid_unsynced_events db valid).1.map (fun e2 => e2.1) := by
        rw [hid]
        exact List.mem_map_of_mem (fun e2 : EventRow => e2.1) he
      have hcont : ((get_valid_unsynced_events db valid).1.map
          (fun e2 => e2.1)).contains r0.id = true := by
        simpa using hin
      simp only [mark_as_synced, List.mem_map]
      exact ⟨{ r0 with synced := true }, ⟨r0, hdb1, by rw [if_pos hcont]⟩, hid, rfl⟩

/-- Witness for C3: a store with one valid (`"V"`) and one invalid (`"W"`)
unsynced record, when the cloud insert fails, keeps the valid candidate
unsynced and reports failure. -/
theorem c3_batch_upload_atomic_witness :
    ((⟨[⟨1, "V", "t1", true, false⟩, ⟨2, "W", "t2", true, false⟩], [], 3⟩ :
        LocalDB).events.map ScanRecord.id).Nodup
    ∧ ((¬ (get_valid_unsynced_events
            ⟨[⟨1, "V", "t1", true, false⟩, ⟨2, "W", "t2", true, false⟩], [], 3⟩
            ["V"]).1 = [] →
        (sync_with_supabase ⟨[⟨1, "V", "t1", true, false⟩, ⟨2, "W", "t2", true, false⟩],
            [], 3⟩ ["V"] false "dev" "R1").ok = false)
      ∧ ∀ e ∈ (get_valid_unsynced_events
            ⟨[⟨1, "V", "t1", true, false⟩, ⟨2, "W", "t2", true, false⟩], [], 3⟩
            ["V"]).1,
          ∃ r ∈ (sync_with_supabase
              ⟨[⟨1, "V", "t1", true, false⟩, ⟨2, "W", "t2", true, false⟩], [], 3⟩
              ["V"] false "dev" "R1").db.events,
            r.id = e.1 ∧ r.synced = false) :=
  ⟨by decide,
    c3_batch_upload_atomic
      ⟨[⟨1, "V", "t1", true, false⟩, ⟨2, "W", "t2", true, false⟩], [], 3⟩
      ["V"] false "dev" "R1" (by decide)⟩

/-- `mark_as_synced` preserves `idSyncedTrue`. -/
lemma idSyncedTrue_mark_as_synced (db : LocalDB) (ids : List Nat) (i : Nat)
    (h : idSyncedTrue db i) : idSyncedTrue (mark_as_synced db ids) i :=
  idSyncedTrue_map db i _ h

/-- Whatever the cloud outcome, the store after a sync cycle is either the
post-cleanup store or that store with the candidate ids marked synced. -/
lemma sync_db_cases (db : LocalDB) (valid : List String) (insertOk : Bool)
    (device_id room_id : String) :
    (sync_with_supabase db valid insertOk device_id room_id).db =
        (get_valid_unsynced_events db valid).2
    ∨ (sync_with_supabase db valid insertOk device_id room_id).db =
        mark_as_synced (get_valid_unsynced_events db valid).2
          ((get_valid_unsynced_events db valid).1.map (fun e2 => e2.1)) := by
  cases hc : (get_valid_unsynced_events db valid).1 with
  | nil =>
    left
    simp [sync_with_supabase, hc]
  | cons a l =>
    have hE : (get_valid_unsynced_events db valid).1.isEmpty = false := by
      rw [hc]; rfl
    cases insertOk with
    | false =>
      left
      simp [sync_with_supabase, hE]
    | true =>
      right
      simp [sync_with_supabase, hE, hc]

/-- Claim C4: in **every** sync cycle — whatever the batch-insert outcome —
each unsynced event whose `card_uid` is not in the valid-card set is marked
synced without being uploaded and is excluded from the upload payload,
while each unsynced event whose `card_uid` is in the valid set is kept as
an upload candidate (and, the cycle succeeding, also ends marked synced);
every payload entry carries a valid `card_uid`.  The `Nodup` hypothesis is
the `AUTOINCREMENT` primary-key property of `local_events.id`. -/
theorem c4_referential_integrity_filter (db : LocalDB) (valid : List String)
    (insertOk : Bool) (device_id room_id : String)
    (hids : (db.events.map ScanRecord.id).Nodup) :
    (∀ r ∈ db.events, r.synced = false → valid.contains r.card_uid = false →
      (∀ r2 ∈ (sync_with_supabase db valid insertOk device_id room_id).db.events,
          r2.id = r.id → r2.synced = true)
      ∧ ¬ toRow r ∈ (get_valid_unsynced_events db valid).1)
    ∧ (∀ r ∈ db.events, r.synced = false → valid.contains r.card_uid = true →
      toRow r ∈ (get_valid_unsynced_events db valid).1
      ∧ (insertOk = true →
          ∃ r2 ∈ (sync_with_supabase db valid insertOk device_id room_id).db.events,
            r2.id = r.id ∧ r2.synced = true))
    ∧ ∀ p ∈ (sync_with_supabase db valid insertOk device_id room_id).payload,
        valid.contains p.card_uid = true := by
  refine ⟨?_, ?_, ?_⟩
  · intro r hr hsync hinv
    have hrrows : r ∈ db.events.filter (fun r2 => r2.synced == false) :=
      List.mem_filter.mpr ⟨hr, by simp [hsync]⟩
    have h1 : idSyncedTrue (get_valid_unsynced_events db valid).2 r.id := by
      rw [gvue_snd_eq]
      exact invalidCleanup_marks valid _ db r hrrows hinv
    constructor
    · rcases sync_db_cases db valid insertOk device_id room_id with hres | hres
      · rw [hres]
        exact h1
      · rw [hres]
        exact idSyncedTrue_mark_as_synced _ _ r.id h1
    · intro hmemc
      rw [gvue_fst_eq] at hmemc
      obtain ⟨s, hsf, hsrow⟩ := List.mem_map.mp hmemc
      have hsvalid : valid.contains s.card_uid = true := (List.mem_filter.mp hsf).2
      have hsc : s.card_uid = r.card_uid := congrArg (fun q : EventRow => q.2.1) hsrow
      rw [hsc] at hsvalid
      exact (Bool.eq_false_iff.mp hinv) hsvalid
  · intro r hr hsync hv
    have hrrows : r ∈ db.events.filter (fun r2 => r2.synced == false) :=
      List.mem_filter.mpr ⟨hr, by simp [hsync]⟩
    have htop : toRow r ∈ (get_valid_unsynced_events db valid).1 := by
      rw [gvue_fst_eq]
      exact List.mem_map_of_mem toRow (List.mem_filter.mpr ⟨hrrows, hv⟩)
    refine ⟨htop, ?_⟩
    intro hOk
    subst hOk
    have hfresh : ∀ s ∈ db.events.filter (fun r2 => r2.synced == false),
        valid.contains s.card_uid = false → ¬ s.id = r.id := by
      intro s hs hsv heq
      have hsmem : s ∈ db.events := (List.mem_filter.mp hs).1
      have hsr : s = r := List.inj_on_of_nodup_map hids hsmem hr heq
      rw [hsr] at hsv
      exact (Bool.eq_false_iff.mp hsv) hv
    have hdb1 : r ∈ ((get_valid_unsynced_events db valid).2).events := by
      rw [gvue_snd_eq]
      exact mem_invalidCleanup valid _ db r hr hfresh
    have hE : (get_valid_unsynced_events db valid).1.isEmpty = false := by
      cases hc : (get_valid_unsynced_events db valid).1 with
      | nil =>
        rw [hc] at htop
        exact absurd htop (List.not_mem_nil _)
      | cons a l => rfl
    have hres : (sync_with_supabase db valid true device_id room_id).db =
        mark_as_synced (get_valid_unsynced_events db valid).2
          ((get_valid_unsynced_events db valid).1.map (fun e2 => e2.1)) := by
      simp [sync_with_supabase, hE]
    rw [hres]
    have hcont : ((get_valid_unsynced_events db valid).1.map
        (fun e2 => e2.1)).contains r.id = true := by
      have h2 : r.id ∈ (get_valid_unsynced_events db valid).1.map (fun e2 => e2.1) :=
        List.mem_map_of_mem (fun e2 : EventRow => e2.1) htop
      simpa using h2
    simp only [mark_as_synced, List.mem_map]
    exact ⟨{ r with synced := true }, ⟨r, hdb1, by rw [if_pos hcont]⟩, rfl, rfl⟩
  · intro p hp
    cases hc : (get_valid_unsynced_events db valid).1 with
    | nil =>
      have hpay : (sync_with_supabase db valid insertOk device_id room_id).payload = [] := by
        simp [sync_with_supabase, hc]
      rw [hpay] at hp
      exact absurd hp (List.not_mem_nil p)
    | cons a l =>
      have hE : (get_valid_unsynced_events db valid).1.isEmpty = false := by
        rw [hc]; rfl
      have hpay : (sync_with_supabase db valid insertOk device_id room_id).payload =
          (get_valid_unsynced_events db valid).1.map
            (fun e => ⟨e.2.1, device_id, room_id, e.2.2.1, e.2.2.2⟩) := by
        cases insertOk <;> simp [sync_with_supabase, hE]
      rw [hpay] at hp
      obtain ⟨e2, he2, hpe⟩ := List.mem_map.mp hp
      rw [gvue_fst_eq] at he2
      obtain ⟨r0, hr0f, hrow⟩ := List.mem_map.mp he2
      have hv0 : valid.contains r0.card_uid = true := (List.mem_filter.mp hr0f).2
      have hcard : p.card_uid = r0.card_uid := by
        rw [← hpe, ← hrow]
        rfl
      rw [hcard]
      exact hv0

/-- Witness for C4: one valid (`"V"`) and one invalid (`"W"`) unsynced
record on a successful cycle — both end synced and the payload only carries
the valid card. -/
theorem c4_referential_integrity_filter_witness :
    ((⟨[⟨1, "V", "t1", true, false⟩, ⟨2, "W", "t2", true, false⟩], [], 3⟩ :
        LocalDB).events.map ScanRecord.id).Nodup
    ∧ ((∀ r ∈ (⟨[⟨1, "V", "t1", true, false⟩, ⟨2, "W", "t2", true, false⟩], [], 3⟩ :
          LocalDB).events, r.synced = false →
          (["V"] : List String).contains r.card_uid = false →
        (∀ r2 ∈ (sync_with_supabase
            ⟨[⟨1, "V", "t1", true, false⟩, ⟨2, "W", "t2", true, false⟩], [], 3⟩
            ["V"] true "dev" "R1").db.events, r2.id = r.id → r2.synced = true)
        ∧ ¬ toRow r ∈ (get_valid_unsynced_events
            ⟨[⟨1, "V", "t1", true, false⟩, ⟨2, "W", "t2", true, false⟩], [], 3⟩
            ["V"]).1)
      ∧ (∀ r ∈ (⟨[⟨1, "V", "t1", true, false⟩, ⟨2, "W", "t2", true, false⟩], [], 3⟩ :
            LocalDB).events, r.synced = false →
            (["V"] : List String).contains r.card_uid = true →
          toRow r ∈ (get_valid_unsynced_events
            ⟨[⟨1, "V", "t1", true, false⟩, ⟨2, "W", "t2", true, false⟩], [], 3⟩
            ["V"]).1
          ∧ (true = true → ∃ r2 ∈ (sync_with_supabase
              ⟨[⟨1, "V", "t1", true, false⟩, ⟨2, "W", "t2", true, false⟩], [], 3⟩
              ["V"] true "dev" "R1").db.events, r2.id = r.id ∧ r2.synced = true))
      ∧ ∀ p ∈ (sync_with_supabase
          ⟨[⟨1, "V", "t1", true, false⟩, ⟨2, "W", "t2", true, false⟩], [], 3⟩
          ["V"] true "dev" "R1").payload,
          (["V"] : List String).contains p.card_uid = true) :=
  ⟨by decide,
    c4_referential_integrity_filter
      ⟨[⟨1, "V", "t1", true, false⟩, ⟨2, "W", "t2", true, false⟩], [], 3⟩
      ["V"] true "dev" "R1" (by decide)⟩

/-- Counterexample to claim C2: the claim says any I/O error during the
durable write propagates to the ingestion caller as a failure, so no scan is
silently dropped.  In the code the `POST /rfid` caller is answered
`202 {status: "queued"}` before the queue consumer attempts the write; when
the write then fails, the consumer catches the exception, logs, and drops
the item: the store is unchanged, the scan is gone, and the ingestion caller
has observed a success, not a failure. -/
theorem c2_counterexample :
    (ingestScan false ⟨[], [], 0⟩ (some "R1") (some "X") "t0").dropped = true
    ∧ (ingestScan false ⟨[], [], 0⟩ (some "R1") (some "X") "t0").db = ⟨[], [], 0⟩
    ∧ (ingestScan false ⟨[], [], 0⟩ (some "R1") (some "X") "t0").resp.code = 202
    ∧ (ingestScan false ⟨[], [], 0⟩ (some "R1") (some "X") "t0").resp.status
        = some "queued"
    ∧ (ingestScan false ⟨[], [], 0⟩ (some "R1") (some "X") "t0").resp.error = none := by
  decide

/-- Claim C2 as amended: a storage error inside `insert_local_event`
propagates to its direct caller (the function installs no handler), but that
caller is the intake-queue consumer `_queue_worker`, which catches every
exception, logs, and drops the item leaving the store unchanged; the HTTP
ingestion caller's response is computed before the durable write and is
identical whether the write succeeds or fails, so a scan can be lost with
the ingestion caller having observed `202 queued`. -/
theorem c2_write_error_dropped_by_consumer (db : LocalDB) (room_id : Option String)
    (card_uid : Option String) (uid now : String) (auth : Bool) :
    insertLocalEventRun false db uid now auth = .error sqliteError
    ∧ queueWorkerStep false db now (uid, auth) = (db, true)
    ∧ (ingestScan false db room_id card_uid now).resp
        = (ingestScan true db room_id card_uid now).resp := by
  refine ⟨rfl, rfl, ?_⟩
  simp only [ingestScan]
  cases h : (receive_rfid db room_id card_uid).2 with
  | nil => rfl
  | cons item rest => rfl

end TagPass
